import Mathlib

/-
Shallow embedding of the hike-length-tracker single-page application
(src/src/routes/+page.svelte).  The script's module-level mutable
variables become fields of an explicit `AppState`; each handler becomes a
pure state-transition function.  Platform effects (the geolocation API,
timers, `Date.now()`) are passed in as explicit parameters or outcome
values.  Floating-point arithmetic is modelled over ℝ.
-/

namespace HikeTracker

open Real

/-- Model of JavaScript's `Math.atan2(y, x)`: the angle of the point
`(x, y)` in `(-π, π]`, with `atan2 0 0 = 0`. -/
noncomputable def atan2 (y x : ℝ) : ℝ :=
  if 0 < x then arctan (y / x)
  else if x < 0 then
    (if 0 ≤ y then arctan (y / x) + π else arctan (y / x) - π)
  else if 0 < y then π / 2
  else if y < 0 then -(π / 2)
  else 0

/-- Embedding of `calculateDistance(lat1, lon1, lat2, lon2)`
(+page.svelte lines 84-97): haversine distance in meters with
`R = 6371e3`, converting the degree inputs to radians exactly as the
source writes it (`Δφ = ((lat2 - lat1) * Math.PI) / 180`, etc.). -/
noncomputable def calculateDistance (lat1 lon1 lat2 lon2 : ℝ) : ℝ :=
  let R : ℝ := 6371e3
  let phi1 := lat1 * π / 180
  let phi2 := lat2 * π / 180
  let dPhi := (lat2 - lat1) * π / 180
  let dLam := (lon2 - lon1) * π / 180
  let a := Real.sin (dPhi / 2) * Real.sin (dPhi / 2) +
      Real.cos phi1 * Real.cos phi2 * Real.sin (dLam / 2) * Real.sin (dLam / 2)
  let c := 2 * atan2 (Real.sqrt a) (Real.sqrt (1 - a))
  R * c

/-- Transcription of the specification's haversine formula, written from
the spec's words for comparison with `calculateDistance`: φ and λ are the
latitude and longitude converted to radians, Δφ = φ2 − φ1, Δλ = λ2 − λ1,
a = sin²(Δφ/2) + cos φ1 · cos φ2 · sin²(Δλ/2),
c = 2 · atan2(√a, √(1 − a)), result R · c with R = 6 371 000 m. -/
noncomputable def haversineSpec (lat1 lon1 lat2 lon2 : ℝ) : ℝ :=
  let R : ℝ := 6371000
  let phi1 := lat1 * π / 180
  let phi2 := lat2 * π / 180
  let lam1 := lon1 * π / 180
  let lam2 := lon2 * π / 180
  let dPhi := phi2 - phi1
  let dLam := lam2 - lam1
  let a := Real.sin (dPhi / 2) ^ 2 + Real.cos phi1 * Real.cos phi2 * Real.sin (dLam / 2) ^ 2
  let c := 2 * atan2 (Real.sqrt a) (Real.sqrt (1 - a))
  R * c

/-- Coordinates of a `GeolocationPosition` (only the fields the script
reads). -/
structure Coordinates where
  latitude : ℝ
  longitude : ℝ

/-- One sensed position (a Reading): coordinates plus a timestamp in
epoch milliseconds. -/
structure GeolocationPosition where
  coords : Coordinates
  timestamp : ℤ

/-- Haversine increment between two retained positions, as
`updateDistance` computes it. -/
noncomputable def seg (p q : GeolocationPosition) : ℝ :=
  calculateDistance p.coords.latitude p.coords.longitude
    q.coords.latitude q.coords.longitude

/-- The script's module-level mutable state: `tracking`, `distance`,
`positions`, `watchId`, `error`, `startTime`, `endTime`,
`currentElapsedTime`.  `watchId` is `none` while the `let watchId` binding
is still `undefined`; dates are epoch milliseconds.  (The interval handle
`elapsedTimeInterval` and the read-only `permissionStatus` are omitted:
no claim mentions them and no handler reads them back into this state.) -/
structure AppState where
  tracking : Bool
  distance : ℝ
  positions : List GeolocationPosition
  watchId : Option ℕ
  error : Option String
  startTime : Option ℤ
  endTime : Option ℤ
  currentElapsedTime : String

/-- Initial values of the module-level variables. -/
noncomputable def initialState : AppState where
  tracking := false
  distance := 0
  positions := []
  watchId := none
  error := none
  startTime := none
  endTime := none
  currentElapsedTime := "00:00:00"

/-- Embedding of `updateDistance(position)` (+page.svelte lines 99-111):
when `positions.length > 0`, add the haversine distance from
`positions[positions.length - 1]` (the last element, `getLast?`) to the
new position onto `distance`; then append the position to `positions`. -/
noncomputable def updateDistance (s : AppState) (position : GeolocationPosition) : AppState :=
  let s1 :=
    match s.positions.getLast? with
    | some lastPos => { s with distance := s.distance + seg lastPos position }
    | none => s
  { s1 with positions := s1.positions ++ [position] }

/-- Embedding of `resetTracking()` (+page.svelte lines 51-58): zero the
distance, drop all positions, clear both timestamps, reset the elapsed
display and clear the error.  The source has no guard on `tracking`. -/
def resetTracking (s : AppState) : AppState :=
  { s with
    distance := 0
    positions := []
    startTime := none
    endTime := none
    currentElapsedTime := "00:00:00"
    error := none }

/-- JavaScript truthiness of the `watchId` variable: `undefined` (here
`none`) and `0` are falsy, every other number is truthy. -/
def watchIdTruthy : Option ℕ → Bool
  | none => false
  | some n => n != 0

/-- Embedding of `stopTracking()` (+page.svelte lines 169-176): guarded
by `if (watchId)`.  When the guard holds it clears the platform watch
(external effect), sets `tracking = false` and `endTime = new Date()`,
and stops the interval timer (which mutates no module variable).  Note
the source never resets `watchId` itself, so the guard stays truthy after
a session ends.  `now` is the value of `new Date()` in epoch ms. -/
def stopTracking (s : AppState) (now : ℤ) : AppState :=
  if watchIdTruthy s.watchId then
    { s with tracking := false, endTime := some now }
  else s

/-- User-agent families distinguished by `getPermissionInstructions`
(+page.svelte lines 75-82): `iPhone|iPad|iPod` matches, `Android`
matches, or neither. -/
inductive UserAgent
  | iosFamily
  | android
  | other
deriving DecidableEq

/-- Embedding of `getPermissionInstructions()` (+page.svelte lines
75-82), with the source's literal strings (`\x27` is the apostrophe). -/
def getPermissionInstructions : UserAgent → String
  | .iosFamily =>
      "To enable location tracking on iOS:\n1. Go to Settings\n2. Scroll down to Safari\n3. Tap \x27Location\x27\n4. Select \x27Allow\x27 for this website"
  | .android =>
      "To enable location tracking on Android:\n1. Open browser settings\n2. Go to Site settings > Location\n3. Enable location access for this website"
  | .other =>
      "Please enable location services in your browser settings for this website"

/-- A `GeolocationPositionError`: numeric `code`
(1 = PERMISSION_DENIED, 2 = POSITION_UNAVAILABLE, 3 = TIMEOUT) and
`message`. -/
structure GeoError where
  code : ℕ
  message : String

/-- Embedding of the error callback passed to `watchPosition`
(+page.svelte lines 137-148): the message assigned to `error` for a
continuous-subscription failure. -/
def classifyWatchError (err : GeoError) (ua : UserAgent) : String :=
  if err.code = 1 then
    "Location permission denied.\n\n" ++ getPermissionInstructions ua
  else if err.code = 2 then
    "Unable to determine your location. Please check if location services are enabled."
  else if err.code = 3 then
    "Location request timed out. Please try again."
  else
    "Error: " ++ err.message

/-- What the one-shot `getCurrentPosition` promise rejected with: either
a `GeolocationPositionError` (the `instanceof` branch of the catch), or
any other thrown value, carried as its string rendering. -/
inductive StartFailure
  | geoError (err : GeoError)
  | otherFailure (rendered : String)

/-- Embedding of the `catch` block of `startTracking` (+page.svelte
lines 156-166): only `code === 1` is classified specially; every other
`GeolocationPositionError` (codes 2 and 3 included) and every
non-`GeolocationPositionError` value produce the generic
`Error starting tracking: ...` message. -/
def classifyStartFailure (f : StartFailure) (ua : UserAgent) : String :=
  match f with
  | .geoError err =>
      if err.code = 1 then
        "Location permission denied.\n\n" ++ getPermissionInstructions ua
      else
        "Error starting tracking: " ++ err.message
  | .otherFailure rendered =>
      "Error starting tracking: " ++ rendered

/-- Environment outcome of one invocation of `startTracking()`
(+page.svelte lines 113-167): the capability is absent
(`!navigator.geolocation`), the one-shot `getCurrentPosition` rejects, or
it resolves — in which case the script records `new Date()` as the start
time and `watchPosition` returns a watch id. -/
inductive StartOutcome
  | unsupported
  | oneShotFailure (f : StartFailure)
  | oneShotSuccess (now : ℤ) (newWatchId : ℕ)

/-- Embedding of `startTracking()` (+page.svelte lines 113-167) as a
state transition given the environment outcome.  On the unsupported and
rejection paths only `error` is assigned (the `return` and the `catch`
both fire before any other assignment).  On success: `startTime`,
`endTime = null`, the interval timer starts (no module variable change),
`watchId`, then `tracking = true`; `error` is not touched at start. -/
def startTracking (s : AppState) (ua : UserAgent) : StartOutcome → AppState
  | .unsupported =>
      { s with error := some "Geolocation is not supported by your browser" }
  | .oneShotFailure f =>
      { s with error := some (classifyStartFailure f ua) }
  | .oneShotSuccess now newWatchId =>
      { s with
        startTime := some now
        endTime := none
        watchId := some newWatchId
        tracking := true }

/-- Embedding of the success callback passed to `watchPosition`
(+page.svelte lines 133-136): `error = null` and then
`updateDistance(position)`. -/
noncomputable def watchSuccess (s : AppState) (position : GeolocationPosition) : AppState :=
  updateDistance { s with error := none } position

/-- Embedding of the error callback passed to `watchPosition`
(+page.svelte lines 137-148) as a state transition: it assigns `error`
and nothing else. -/
def watchError (s : AppState) (err : GeoError) (ua : UserAgent) : AppState :=
  { s with error := some (classifyWatchError err ua) }

/-- Left-pad of `n.toString()` to two characters with `0`
(`padStart(2, \x270\x27)` for the two-digit values the script feeds it). -/
def pad2 (n : ℕ) : String :=
  if n < 10 then "0" ++ toString n else toString n

/-- Embedding of `formatElapsedTime(start)` (+page.svelte lines 27-33).
`elapsedMs` is `Date.now() - start.getTime()` (non-negative while
tracking).  The script builds `new Date(elapsedMs)` and reads
`getMinutes()` / `getSeconds()`, which are LOCAL-time accessors: for a
device timezone `tzOffsetMinutes` east of UTC (an integer number of
minutes, e.g. +330 for UTC+05:30), the minutes field of that `Date` is
`(elapsedMs / 60000 + tzOffsetMinutes) mod 60` and the seconds field is
`(elapsedMs / 1000) mod 60`.  Hours come from `getTime()`, which is
timezone-independent. -/
def formatElapsedTime (elapsedMs : ℕ) (tzOffsetMinutes : ℤ) : String :=
  let hours : ℕ := elapsedMs / (1000 * 60 * 60)
  let minutes : ℕ := (((elapsedMs : ℤ) / 60000 + tzOffsetMinutes) % 60).toNat
  let seconds : ℕ := (elapsedMs / 1000) % 60
  toString hours ++ ":" ++ pad2 minutes ++ ":" ++ pad2 seconds

/-- Folding a sequence of delivered positions through `updateDistance`:
the Accumulated Distance after accepting each Reading in turn. -/
noncomputable def acceptAll (s : AppState) (rs : List GeolocationPosition) : AppState :=
  rs.foldl updateDistance s

/-- Increments contributed by a list of Readings when the previously
retained Reading is `prev` (`none` at the start of a session): each
consecutive pair contributes one haversine increment. -/
noncomputable def chain : Option GeolocationPosition → List GeolocationPosition → List ℝ
  | _, [] => []
  | none, r :: rest => chain (some r) rest
  | some p, r :: rest => seg p r :: chain (some r) rest

/-- Pairwise consecutive increments of a fresh session's Readings. -/
noncomputable def increments (rs : List GeolocationPosition) : List ℝ :=
  chain none rs

/-! Helper lemmas shared by the claim theorems. -/

/-- With a non-negative first argument, `atan2` lands in `[0, π]`; in
particular it is non-negative. -/
theorem atan2_nonneg (y x : ℝ) (hy : 0 ≤ y) : 0 ≤ atan2 y x := by
  have hpi := Real.pi_pos
  unfold atan2
  split_ifs with h1 h2 h3 h4 h5 <;>
    first
      | (have h := Real.arctan_strictMono.monotone (div_nonneg hy (le_of_lt h1));
         rwa [Real.arctan_zero] at h)
      | (have h := Real.neg_pi_div_two_lt_arctan (y / x); linarith)
      | linarith

/-- Scaling shape of the haversine result used to derive non-negativity. -/
theorem haversine_scale_nonneg (a b : ℝ) :
    0 ≤ (6371e3 : ℝ) * (2 * atan2 (Real.sqrt a) (Real.sqrt b)) := by
  have h := atan2_nonneg (Real.sqrt a) (Real.sqrt b) (Real.sqrt_nonneg a)
  have h2 : (0:ℝ) ≤ 6371e3 := by norm_num
  nlinarith

/-- Every haversine increment the accumulator can add is non-negative. -/
theorem calculateDistance_nonneg (lat1 lon1 lat2 lon2 : ℝ) :
    0 ≤ calculateDistance lat1 lon1 lat2 lon2 :=
  haversine_scale_nonneg _ _

/-- The `seg` increment is non-negative. -/
theorem seg_nonneg (p q : GeolocationPosition) : 0 ≤ seg p q :=
  calculateDistance_nonneg _ _ _ _

/-- `updateDistance` appends the new position to the history. -/
theorem updateDistance_positions (s : AppState) (r : GeolocationPosition) :
    (updateDistance s r).positions = s.positions ++ [r] := by
  unfold updateDistance
  cases h : s.positions.getLast? <;> simp [h]

/-- Distance field of `updateDistance`: unchanged on an empty history,
incremented by the haversine segment from the last retained position
otherwise. -/
theorem updateDistance_distance (s : AppState) (r : GeolocationPosition) :
    (updateDistance s r).distance =
      (match s.positions.getLast? with
      | some p => s.distance + seg p r
      | none => s.distance) := by
  unfold updateDistance
  cases h : s.positions.getLast? <;> simp [h]

/-- `updateDistance` touches only `distance` and `positions`. -/
theorem updateDistance_frame (s : AppState) (r : GeolocationPosition) :
    (updateDistance s r).tracking = s.tracking ∧
    (updateDistance s r).watchId = s.watchId ∧
    (updateDistance s r).error = s.error ∧
    (updateDistance s r).startTime = s.startTime ∧
    (updateDistance s r).endTime = s.endTime ∧
    (updateDistance s r).currentElapsedTime = s.currentElapsedTime := by
  unfold updateDistance
  cases h : s.positions.getLast? <;> simp [h]

/-- Unfolding `chain` on a cons with no retained previous position. -/
theorem chain_none_cons (r : GeolocationPosition) (rest : List GeolocationPosition) :
    chain none (r :: rest) = chain (some r) rest := rfl

/-- Unfolding `chain` on a cons with a retained previous position. -/
theorem chain_some_cons (p r : GeolocationPosition) (rest : List GeolocationPosition) :
    chain (some p) (r :: rest) = seg p r :: chain (some r) rest := rfl

/-- Sanity: `increments` really is the list of pairwise consecutive
haversine increments. -/
theorem increments_cons_cons (r1 r2 : GeolocationPosition) (rest : List GeolocationPosition) :
    increments (r1 :: r2 :: rest) = seg r1 r2 :: increments (r2 :: rest) := rfl

/-- Every entry of a `chain` is a haversine segment, hence non-negative. -/
theorem chain_mem_nonneg (rs : List GeolocationPosition) :
    ∀ (prev : Option GeolocationPosition), ∀ x ∈ chain prev rs, 0 ≤ x := by
  induction rs with
  | nil => intro prev x hx; simp [chain] at hx
  | cons r rest ih =>
    intro prev x hx
    cases prev with
    | none => exact ih (some r) x (by simpa [chain] using hx)
    | some p =>
      rw [chain_some_cons] at hx
      rcases List.mem_cons.mp hx with h | h
      · rw [h]; exact seg_nonneg p r
      · exact ih (some r) x h

/-- Core accumulator invariant: folding a Reading sequence through
`updateDistance` appends the whole sequence to the history and adds
exactly the chained pairwise increments (anchored at the currently
retained last position) to the distance. -/
theorem acceptAll_spec (rs : List GeolocationPosition) :
    ∀ s : AppState,
      (acceptAll s rs).distance = s.distance + (chain s.positions.getLast? rs).sum ∧
      (acceptAll s rs).positions = s.positions ++ rs := by
  induction rs with
  | nil => intro s; simp [acceptAll, chain]
  | cons r rest ih =>
    intro s
    have hstep : acceptAll s (r :: rest) = acceptAll (updateDistance s r) rest := rfl
    have hpos := updateDistance_positions s r
    have hlast : (updateDistance s r).positions.getLast? = some r := by
      rw [hpos]; simp
    have hd := updateDistance_distance s r
    obtain ⟨ih1, ih2⟩ := ih (updateDistance s r)
    rw [hlast] at ih1
    constructor
    · rw [hstep, ih1, hd]
      cases h : s.positions.getLast? with
      | none => rw [chain_none_cons]
      | some p => rw [chain_some_cons]; simp; ring
    · rw [hstep, ih2, hpos]
      simp

/-- Distance part of `acceptAll_spec` from the initial (or just-reset)
state. -/
theorem acceptAll_initial_distance (rs : List GeolocationPosition) :
    (acceptAll initialState rs).distance = (increments rs).sum := by
  have h := (acceptAll_spec rs initialState).1
  simpa [initialState, increments] using h

/-- Positions part of `acceptAll_spec` from the initial state. -/
theorem acceptAll_initial_positions (rs : List GeolocationPosition) :
    (acceptAll initialState rs).positions = rs := by
  have h := (acceptAll_spec rs initialState).2
  simpa [initialState] using h

/-- Accepting one Reading never decreases the distance. -/
theorem updateDistance_mono (s : AppState) (r : GeolocationPosition) :
    s.distance ≤ (updateDistance s r).distance := by
  rw [updateDistance_distance]
  cases h : s.positions.getLast? with
  | none => exact le_refl _
  | some p => exact le_add_of_nonneg_right (seg_nonneg p r)

/-! Claim theorems. -/

/-- C1: when a previous Reading is retained (the last element of
`positions`), `updateDistance` adds exactly the haversine great-circle
distance from it to the new Reading and the new Reading becomes the
retained previous one (the last element); when no previous Reading
exists, the distance is unchanged and the Reading is recorded. -/
theorem C1_accept_adds_haversine_increment (s : AppState) (r : GeolocationPosition) :
    (∀ p, s.positions.getLast? = some p →
        (updateDistance s r).distance = s.distance +
          calculateDistance p.coords.latitude p.coords.longitude
            r.coords.latitude r.coords.longitude ∧
        (updateDistance s r).positions.getLast? = some r) ∧
    (s.positions = [] →
        (updateDistance s r).distance = s.distance ∧
        (updateDistance s r).positions = [r]) := by
  constructor
  · intro p hp
    constructor
    · rw [updateDistance_distance, hp]; rfl
    · rw [updateDistance_positions]; simp
  · intro h
    constructor
    · rw [updateDistance_distance, h]; simp
    · rw [updateDistance_positions, h]; simp

/-- C2: `calculateDistance` computes exactly the specification's
haversine formula (R = 6,371,000 m, `a`, `c` and the radian conversions
as written in the spec); stated for all real degree inputs, which covers
the claimed latitude/longitude ranges. -/
theorem C2_calculateDistance_is_spec_haversine (lat1 lon1 lat2 lon2 : ℝ) :
    calculateDistance lat1 lon1 lat2 lon2 = haversineSpec lat1 lon1 lat2 lon2 := by
  simp only [calculateDistance, haversineSpec]
  rw [show (lat2 - lat1) * π / 180 = lat2 * π / 180 - lat1 * π / 180 by ring,
    show (lon2 - lon1) * π / 180 = lon2 * π / 180 - lon1 * π / 180 by ring]
  norm_num
  ring_nf

/-- Concrete Reading at the origin (valid latitude). -/
noncomputable def rA : GeolocationPosition := ⟨⟨0, 0⟩, 0⟩

/-- Concrete Reading at 1°N 1°E (valid latitude). -/
noncomputable def rB : GeolocationPosition := ⟨⟨1, 1⟩, 60000⟩

/-- Concrete state holding exactly one retained Reading. -/
noncomputable def oneReadingState : AppState := { initialState with positions := [rA] }

/-- Witness for C1 at concrete inputs: a state retaining `rA` accepts
`rB` and gains exactly the haversine increment; the initial state accepts
`rA` with no distance change. -/
theorem C1_witness :
    ((updateDistance oneReadingState rB).distance = oneReadingState.distance +
        calculateDistance rA.coords.latitude rA.coords.longitude
          rB.coords.latitude rB.coords.longitude ∧
      (updateDistance oneReadingState rB).positions.getLast? = some rB) ∧
    ((updateDistance initialState rA).distance = initialState.distance ∧
      (updateDistance initialState rA).positions = [rA]) :=
  ⟨(C1_accept_adds_haversine_increment oneReadingState rB).1 rA
      (by simp [oneReadingState, initialState]),
    (C1_accept_adds_haversine_increment initialState rA).2
      (by simp [initialState])⟩

/-- C3: for sequences of accepted Readings with in-range latitudes, the
Accumulated Distance from a fresh session equals the sum of the pairwise
consecutive increments and is non-negative; each accept is monotone
non-decreasing; and `resetTracking` sets the distance exactly to zero. -/
theorem C3_accumulated_distance_invariants (rs : List GeolocationPosition)
    (hlat : ∀ r ∈ rs, -90 ≤ r.coords.latitude ∧ r.coords.latitude ≤ 90)
    (s : AppState) (r : GeolocationPosition) :
    (acceptAll initialState rs).distance = (increments rs).sum ∧
    0 ≤ (acceptAll initialState rs).distance ∧
    s.distance ≤ (updateDistance s r).distance ∧
    (resetTracking s).distance = 0 := by
  refine ⟨acceptAll_initial_distance rs, ?_, updateDistance_mono s r, rfl⟩
  rw [acceptAll_initial_distance rs]
  exact List.sum_nonneg (fun x hx => chain_mem_nonneg rs none x hx)

/-- Witness for C3 at the concrete two-Reading session `[rA, rB]`. -/
theorem C3_witness :
    (acceptAll initialState [rA, rB]).distance = (increments [rA, rB]).sum ∧
    0 ≤ (acceptAll initialState [rA, rB]).distance ∧
    initialState.distance ≤ (updateDistance initialState rA).distance ∧
    (resetTracking initialState).distance = 0 :=
  C3_accumulated_distance_invariants [rA, rB]
    (by
      intro r hr
      rcases List.mem_cons.mp hr with h | h
      · subst h; constructor <;> norm_num [rA]
      · rcases List.mem_cons.mp h with h2 | h2
        · subst h2; constructor <;> norm_num [rB]
        · simp at h2)
    initialState rA

/-- C4 counterexample: on the one-shot start path, a
`GeolocationPositionError` with code 2 (position undeterminable) is NOT
classified as the PositionUnavailable message the contract (and the
continuous-subscription path) uses; the catch block produces the generic
start-failure message instead. -/
theorem C4_counterexample :
    classifyStartFailure (.geoError ⟨2, "position lost"⟩) .other ≠
      "Unable to determine your location. Please check if location services are enabled." ∧
    classifyStartFailure (.geoError ⟨2, "position lost"⟩) .other =
      "Error starting tracking: position lost" ∧
    classifyWatchError ⟨2, "position lost"⟩ .other =
      "Unable to determine your location. Please check if location services are enabled." := by
  refine ⟨by decide, rfl, rfl⟩

/-- C4 (amended): the continuous-subscription error callback classifies
exactly per the contract (code 1 → PermissionDenied with user-agent
specific remediation, code 2 → PositionUnavailable, code 3 → Timeout,
otherwise Unknown with the message); capability absence yields the
Unsupported message; but the one-shot catch block special-cases only
code 1 and renders every other failure — codes 2 and 3 included — as the
generic `Error starting tracking:` message.  The three remediation texts
are pairwise distinct. -/
theorem C4_error_classification (err : GeoError) (ua : UserAgent)
    (rendered : String) (s : AppState) :
    (err.code = 1 →
        classifyWatchError err ua =
          "Location permission denied.\n\n" ++ getPermissionInstructions ua ∧
        classifyStartFailure (.geoError err) ua =
          "Location permission denied.\n\n" ++ getPermissionInstructions ua) ∧
    (err.code = 2 →
        classifyWatchError err ua =
          "Unable to determine your location. Please check if location services are enabled.") ∧
    (err.code = 3 →
        classifyWatchError err ua = "Location request timed out. Please try again.") ∧
    (err.code ≠ 1 → err.code ≠ 2 → err.code ≠ 3 →
        classifyWatchError err ua = "Error: " ++ err.message) ∧
    (err.code ≠ 1 →
        classifyStartFailure (.geoError err) ua =
          "Error starting tracking: " ++ err.message) ∧
    classifyStartFailure (.otherFailure rendered) ua =
      "Error starting tracking: " ++ rendered ∧
    (startTracking s ua .unsupported).error =
      some "Geolocation is not supported by your browser" ∧
    (getPermissionInstructions .iosFamily ≠ getPermissionInstructions .android ∧
      getPermissionInstructions .iosFamily ≠ getPermissionInstructions .other ∧
      getPermissionInstructions .android ≠ getPermissionInstructions .other) := by
  refine ⟨?_, ?_, ?_, ?_, ?_, rfl, rfl, by decide, by decide, by decide⟩ <;>
    intro h <;>
    simp [classifyWatchError, classifyStartFailure, h]
  · intro h2 h3
    simp [h2, h3]

/-- Witness for C4 (amended) at concrete errors: code 2 on the watch
path is PositionUnavailable while code 2 on the one-shot path is the
generic start-failure message. -/
theorem C4_witness :
    classifyWatchError ⟨2, "x"⟩ .iosFamily =
      "Unable to determine your location. Please check if location services are enabled." ∧
    classifyStartFailure (.geoError ⟨2, "x"⟩) .iosFamily =
      "Error starting tracking: " ++ "x" :=
  ⟨(C4_error_classification ⟨2, "x"⟩ .iosFamily "r" initialState).2.1 rfl,
    (C4_error_classification ⟨2, "x"⟩ .iosFamily "r" initialState).2.2.2.2.1 (by decide)⟩

/-- C5 counterexample: after a fresh session accepts two Readings, the
accumulator's history holds BOTH of them (the source appends to
`positions`), not only the most recent one. -/
theorem C5_counterexample :
    (acceptAll initialState [rA, rB]).positions = [rA, rB] ∧
    (acceptAll initialState [rA, rB]).positions.length ≠ 1 := by
  have h := acceptAll_initial_positions [rA, rB]
  exact ⟨h, by rw [h]; decide⟩

/-- C5 (amended): each accepted Reading is appended to the retained
history (the full history is kept), and the distance increment depends
only on the most recent retained Reading: two states agreeing on their
last retained Reading gain the same increment from the same new
Reading. -/
theorem C5_history_and_last_reading (s t : AppState) (r : GeolocationPosition)
    (h : s.positions.getLast? = t.positions.getLast?) :
    (updateDistance s r).positions = s.positions ++ [r] ∧
    (updateDistance s r).distance - s.distance =
      (updateDistance t r).distance - t.distance := by
  refine ⟨updateDistance_positions s r, ?_⟩
  rw [updateDistance_distance, updateDistance_distance, ← h]
  cases s.positions.getLast? <;> simp

/-- Witness for C5 (amended): the one-Reading state `[rA]` and the
two-Reading state `[rB, rA]` share the last retained Reading, so they
gain the same increment from `rB`. -/
theorem C5_witness :
    (updateDistance oneReadingState rB).positions = oneReadingState.positions ++ [rB] ∧
    (updateDistance oneReadingState rB).distance - oneReadingState.distance =
      (updateDistance { initialState with positions := [rB, rA] } rB).distance -
        ({ initialState with positions := [rB, rA] } : AppState).distance :=
  C5_history_and_last_reading oneReadingState { initialState with positions := [rB, rA] } rB
    (by simp [oneReadingState, initialState])

/-- Concrete Idle state left behind by a previous session: `tracking` is
false but `watchId` still holds the old (truthy) watch handle, and the
session timestamps are recorded. -/
noncomputable def staleIdleState : AppState where
  tracking := false
  distance := 0
  positions := []
  watchId := some 7
  error := none
  startTime := some 1000
  endTime := some 61000
  currentElapsedTime := "0:01:00"

/-- C6 counterexample: invoking `stopTracking` while Idle after a
previous session (stale truthy `watchId`) DOES change state — it
overwrites `endTime` with the current time. -/
theorem C6_counterexample :
    staleIdleState.tracking = false ∧
    (stopTracking staleIdleState 999999).endTime ≠ staleIdleState.endTime := by
  constructor
  · rfl
  · simp [stopTracking, staleIdleState, watchIdTruthy]

/-- C6 (amended): `stopTracking` is a no-op exactly when the `watchId`
variable is still falsy (no session ever registered a watch); once a
previous session has set a truthy `watchId`, invoking stop — even while
Idle — re-clears the watch, forces `tracking := false` and overwrites
`endTime` with the current time, while distance, positions, startTime,
error, the elapsed display and `watchId` itself are unchanged. -/
theorem C6_stop_while_idle (s : AppState) (now : ℤ) :
    (watchIdTruthy s.watchId = false → stopTracking s now = s) ∧
    (watchIdTruthy s.watchId = true →
        (stopTracking s now).tracking = false ∧
        (stopTracking s now).endTime = some now ∧
        (stopTracking s now).distance = s.distance ∧
        (stopTracking s now).positions = s.positions ∧
        (stopTracking s now).startTime = s.startTime ∧
        (stopTracking s now).error = s.error ∧
        (stopTracking s now).currentElapsedTime = s.currentElapsedTime ∧
        (stopTracking s now).watchId = s.watchId) := by
  constructor <;> intro h <;> simp [stopTracking, h]

/-- Witness for C6 (amended): a never-started state is untouched by
stop; the stale Idle state gets `endTime` overwritten. -/
theorem C6_witness :
    stopTracking initialState 5 = initialState ∧
    (stopTracking staleIdleState 999999).endTime = some 999999 :=
  ⟨(C6_stop_while_idle initialState 5).1 rfl,
    ((C6_stop_while_idle staleIdleState 999999).2 rfl).2.1⟩

/-- C7: every failing start (one-shot rejection of any kind, or absent
capability) changes nothing but the error message: `tracking`,
`watchId`, the timestamps, the distance, the history and the elapsed
display all keep their previous values — so an Idle session stays Idle
and no subscription is registered — and the surfaced error is the
classified one (the Unsupported message when the capability is
absent). -/
theorem C7_start_failure_is_atomic (s : AppState) (ua : UserAgent) (f : StartFailure) :
    ((startTracking s ua (.oneShotFailure f)).tracking = s.tracking ∧
      (startTracking s ua (.oneShotFailure f)).watchId = s.watchId ∧
      (startTracking s ua (.oneShotFailure f)).startTime = s.startTime ∧
      (startTracking s ua (.oneShotFailure f)).endTime = s.endTime ∧
      (startTracking s ua (.oneShotFailure f)).distance = s.distance ∧
      (startTracking s ua (.oneShotFailure f)).positions = s.positions ∧
      (startTracking s ua (.oneShotFailure f)).currentElapsedTime = s.currentElapsedTime ∧
      (startTracking s ua (.oneShotFailure f)).error = some (classifyStartFailure f ua)) ∧
    ((startTracking s ua .unsupported).tracking = s.tracking ∧
      (startTracking s ua .unsupported).watchId = s.watchId ∧
      (startTracking s ua .unsupported).startTime = s.startTime ∧
      (startTracking s ua .unsupported).endTime = s.endTime ∧
      (startTracking s ua .unsupported).error =
        some "Geolocation is not supported by your browser") := by
  simp [startTracking]

/-- C8: an error delivered to the continuous subscription only records
the classified message — tracking flag, watch id, distance and history
are untouched — and every subsequent successful Reading clears the error
to none (the success callback nulls it before `updateDistance`, which
never writes it). -/
theorem C8_watch_errors_do_not_stop_tracking (s : AppState) (err : GeoError)
    (ua : UserAgent) (r : GeolocationPosition) :
    (watchError s err ua).tracking = s.tracking ∧
    (watchError s err ua).watchId = s.watchId ∧
    (watchError s err ua).distance = s.distance ∧
    (watchError s err ua).positions = s.positions ∧
    (watchError s err ua).error = some (classifyWatchError err ua) ∧
    (watchSuccess s r).error = none ∧
    (watchSuccess s r).tracking = s.tracking ∧
    (watchSuccess s r).watchId = s.watchId := by
  refine ⟨rfl, rfl, rfl, rfl, rfl, ?_, ?_, ?_⟩
  · exact (updateDistance_frame { s with error := none } r).2.2.1
  · exact (updateDistance_frame { s with error := none } r).1
  · exact (updateDistance_frame { s with error := none } r).2.1

/-- C9: at 3661 s elapsed the display is `1:01:01` only when the device
timezone offset is zero (UTC); in a UTC+05:30 timezone the same elapsed
duration displays as `1:31:01`, because the source reads the minutes
from the LOCAL-time fields of a `Date` built from the duration. -/
theorem C9_elapsed_format_timezone_dependent :
    formatElapsedTime 3661000 0 = "1:01:01" ∧
    formatElapsedTime 3661000 330 = "1:31:01" := by
  constructor <;> rfl

/-- C10: `resetTracking` zeroes the distance, discards all retained
Readings, clears the error, both session timestamps and the elapsed
display, and neither reads nor writes the tracking flag or the watch id
— in particular it has no guard on `tracking`, acting identically on a
state in which tracking is active. -/
theorem C10_reset_clears_everything (s : AppState) :
    (resetTracking s).distance = 0 ∧
    (resetTracking s).positions = [] ∧
    (resetTracking s).startTime = none ∧
    (resetTracking s).endTime = none ∧
    (resetTracking s).currentElapsedTime = "00:00:00" ∧
    (resetTracking s).error = none ∧
    (resetTracking s).tracking = s.tracking ∧
    (resetTracking s).watchId = s.watchId ∧
    resetTracking { s with tracking := true } =
      { resetTracking s with tracking := true } := by
  refine ⟨rfl, rfl, rfl, rfl, rfl, rfl, rfl, rfl, rfl⟩

end HikeTracker
